import Mathlib

/-!
Shallow embedding of the XRT repository fragment: the user-space
`xrt_core::device` xclbin/axlf section handling (src/unnamed/part_000,
namespace `xrt_core` of `device.cpp`) and the kernel sysfs module
`xocl_sysfs.c`.  Machine integers are modelled as `Nat` with explicit
`% 2 ^ w` where overflow or truncation matters; C++ exceptions are
modelled with `Except`.
-/

/-- The exceptions thrown by the embedded code: `std::runtime_error`,
`xrt_core::error`, and the query layer's `query::no_such_key`. -/
inductive CppExc where
  | runtime_error (msg : String)
  | xrt_error (msg : String)
  | no_such_key
deriving DecidableEq, Repr

/-- The `axlf_section_kind` enumeration from `core/include/xclbin.h`.
The five kinds named in `device::register_axlf` are explicit constructors;
`OTHER n` stands for every remaining enumerator of the C enum. -/
inductive SectionKind where
  | EMBEDDED_METADATA
  | AIE_METADATA
  | IP_LAYOUT
  | CONNECTIVITY
  | MEM_TOPOLOGY
  | OTHER (n : Nat)
deriving DecidableEq, Repr

/-- An `axlf_section_header` entry of the xclbin container: section kind,
`m_sectionOffset` and `m_sectionSize` (bytes, relative to the start of the
container). -/
structure axlf_section_header where
  m_sectionKind : SectionKind
  m_sectionOffset : Nat
  m_sectionSize : Nat

/-- The `axlf` (xclbin) container handed to `device::register_axlf`:
the header uuid (16 raw bytes, modelled as one natural number), the table
of section headers, and the raw bytes of the container in memory,
addressed from the start of the container (`mem i` is the byte at offset
`i` from the `axlf*` pointer). -/
structure axlf where
  m_header_uuid : Nat
  m_sections : List axlf_section_header
  mem : Nat → Nat

/-- Modelled from the spec: `::xclbin::get_axlf_section` (declared in
`core/include/xclbin.h`, a repository header not in this excerpt) scans the
container's section table and returns the first section header whose
`m_sectionKind` matches the requested kind, or null when there is none. -/
def xclbin_get_axlf_section (top : axlf) (kind : SectionKind) :
    Option axlf_section_header :=
  top.m_sections.find? (fun h => decide (h.m_sectionKind = kind))

/-- The `size` bytes of memory starting `off` bytes past the start of a
buffer whose contents are `mem` (what `memcpy`/the `std::vector` range
constructor read). -/
def readBytes (mem : Nat → Nat) (off size : Nat) : List Nat :=
  (List.range size).map (fun i => mem (off + i))

/-- The state of an `xrt_core::device` relevant to the claims: the stored
xclbin uuid `m_xclbin_uuid` (nil is 0) and the map
`m_axlf_sections : std::map<axlf_section_kind, std::vector<char>>`,
represented as an association list with (distinct) section kinds as keys. -/
structure Device where
  m_xclbin_uuid : Nat
  m_axlf_sections : List (SectionKind × List Nat)

/-- A fresh `device(id)`: nil uuid, empty section map. -/
def Device.init : Device := ⟨0, []⟩

/-- The loop body of `device::register_axlf`: for each kind in the given
list, look the section up in the container; if present, copy
`m_sectionSize` bytes at `m_sectionOffset` into the map under that kind
(`emplace` on a map with pairwise distinct keys). -/
def buildSections (top : axlf) : List SectionKind → List (SectionKind × List Nat)
  | [] => []
  | k :: ks =>
    match xclbin_get_axlf_section top k with
    | none => buildSections top ks
    | some hdr =>
      (k, readBytes top.mem hdr.m_sectionOffset hdr.m_sectionSize) :: buildSections top ks

/-- The list of kinds iterated by `device::register_axlf`. -/
def registeredKinds : List SectionKind :=
  [.EMBEDDED_METADATA, .AIE_METADATA, .IP_LAYOUT, .CONNECTIVITY, .MEM_TOPOLOGY]

/-- `device::register_axlf(top)`: clear `m_axlf_sections`, store the
header uuid, then copy each of the five listed section kinds that is
present in `top`. -/
def register_axlf (_dev : Device) (top : axlf) : Device :=
  { m_xclbin_uuid := top.m_header_uuid
    m_axlf_sections := buildSections top registeredKinds }

/-- `m_axlf_sections.find(section)`, as an `Option` on the stored bytes. -/
def find_section (dev : Device) (k : SectionKind) : Option (List Nat) :=
  (dev.m_axlf_sections.find? (fun p => decide (p.1 = k))).map (fun p => p.2)

/-- `device::get_axlf_section(section, xclbin_id)`: throw
`std::runtime_error("xclbin id mismatch")` when `xclbin_id` is non-nil and
differs from `m_xclbin_uuid`; otherwise return the `(data(), size())` pair
of the stored vector, `(nullptr, 0)` when the section is not in the map.
The pair is modelled as `Option (List Nat)`: `none` is a not-found lookup,
`some v` a found vector with contents `v`. -/
def get_axlf_section (dev : Device) (sec : SectionKind) (xclbin_id : Nat) :
    Except CppExc (Option (List Nat)) :=
  if xclbin_id ≠ 0 ∧ xclbin_id ≠ dev.m_xclbin_uuid then
    .error (.runtime_error ("xclbin id mismatch"))
  else
    .ok (find_section dev sec)

/-- Whether the first component of the returned `(data(), size())` pair is
a null pointer: it is null when no section was found, and also (with
libstdc++, the toolchain of this repository's Makefile) when the stored
vector is empty, since an empty `std::vector` holds no allocation and its
`data()` is null. -/
def first_is_null : Option (List Nat) → Bool
  | none => true
  | some v => v.isEmpty

/-- `device::get_axlf_section_or_error(section, xclbin_id)`: forward
`get_axlf_section`; if the returned pair's pointer is non-null return the
pair, otherwise throw `std::runtime_error("no such xclbin section")`. -/
def get_axlf_section_or_error (dev : Device) (sec : SectionKind) (xclbin_id : Nat) :
    Except CppExc (List Nat) :=
  match get_axlf_section dev sec xclbin_id with
  | .error e => .error e
  | .ok (some v) => if v.isEmpty then .error (.runtime_error ("no such xclbin section")) else .ok v
  | .ok none => .error (.runtime_error ("no such xclbin section"))

/-- Modelled from the spec: `ERT_CQ_SIZE` is defined in
`core/include/ert.h`, a repository header not in this excerpt; the
embedded-runtime command queue of this generation of XRT devices is
64 KiB. -/
def ERT_CQ_SIZE : Nat := 0x10000

/-- `device::get_ert_slots(xml_data, xml_size)`.  The external inputs are
modelled as parameters: `ini` is `config::get_ert_slotsize()` (the xrt.ini
setting, 0 when unconfigured), `num_cus` is
`xrt_core::xclbin::get_cus(xml_data, xml_size).size()` and `max_cu_size`
is `xrt_core::xclbin::get_max_cu_size(xml_data, xml_size)`, both computed
by the external xclbin XML parser from the xml section the arguments point
at. -/
def get_ert_slots_xml (ini num_cus max_cu_size : Nat) : Except CppExc (Nat × Nat) :=
  let max_slots := 128
  let min_slots := 16
  let cq_size := ERT_CQ_SIZE
  if ini ≠ 0 then
    if cq_size / ini > max_slots then
      .error (.runtime_error ("invalid slot size \x27" ++ toString ini ++ "\x27 in xrt.ini"))
    else
      .ok (cq_size / ini, ini)
  else
    let slots := min max_slots (max min_slots (num_cus * 2 + 1))
    let size := max (cq_size / slots) max_cu_size
    let slots2 := cq_size / size
    let slots3 := if slots2 > 16 then ((slots2 - 1) / 32 + 1) * 32 else slots2
    .ok (slots3, cq_size / slots3)

/-- The no-argument `device::get_ert_slots()`: fetch the
`EMBEDDED_METADATA` section with the default (nil) xclbin id, throw
`std::runtime_error("No xml metadata in xclbin")` when its pointer is
null, and otherwise hand the xml data to the two-argument overload
(whose parsed inputs are the parameters `ini`, `num_cus`,
`max_cu_size`). -/
def get_ert_slots_noarg (dev : Device) (ini num_cus max_cu_size : Nat) :
    Except CppExc (Nat × Nat) :=
  match get_axlf_section dev .EMBEDDED_METADATA 0 with
  | .error e => .error e
  | .ok xml =>
    if first_is_null xml then .error (.runtime_error ("No xml metadata in xclbin"))
    else get_ert_slots_xml ini num_cus max_cu_size

/-- `device::get_xclbin_uuid()`: run `device_query<query::xclbin_uuid>`
(its outcome is the parameter `q`), return `uuid(uuid_str)` on success
(`mk` models the `uuid` string constructor), return the default nil uuid
when the query throws `query::no_such_key`, and let any other exception
propagate. -/
def get_xclbin_uuid (mk : String → Nat) (q : Except CppExc String) : Except CppExc Nat :=
  match q with
  | .ok s => .ok (mk s)
  | .error .no_such_key => .ok 0
  | .error e => .error e

/-- A value stored in a `boost::any` by the formatting helpers: one of the
C++ types the code mentions.  `VInt` is a plain (32-bit) `int`, the type
produced by shifting a promoted `uint16_t`/`uint8_t`. -/
inductive CppValue where
  | VString (s : String)
  | VUInt64 (n : Nat)
  | VUInt16 (n : Nat)
  | VUInt8 (n : Nat)
  | VBool (b : Bool)
  | VInt (z : Int)
deriving DecidableEq, Repr

/-- `std::type_info::name()` of each modelled type, as returned by g++
(Itanium-mangled names). -/
def typeName : CppValue → String
  | .VString _ => "NSt7__cxx1112basic_stringIcSt11char_traitsIcESaIcEEE"
  | .VUInt64 _ => "m"
  | .VUInt16 _ => "t"
  | .VUInt8 _ => "h"
  | .VBool _ => "b"
  | .VInt _ => "i"

/-- The rendering of `boost::format("0x%x") % v`: `0x` followed by the
lowercase hexadecimal digits of the value. -/
def hexStr (n : Nat) : String :=
  "0x" ++ String.mk (Nat.toDigits 16 n)

/-- `device::format_primative`: renders `std::string`, `uint64_t`,
`uint16_t` and `bool`; any other contained type throws
`xrt_core::error("Unsupported 'any' typeid: '<name>'")`. -/
def format_primative : CppValue → Except CppExc String
  | .VString s => .ok s
  | .VUInt64 n => .ok (toString n)
  | .VUInt16 n => .ok (toString n)
  | .VBool b => .ok (if b then "true" else "false")
  | v => .error (.xrt_error ("Unsupported \x27any\x27 typeid: \x27" ++ typeName v ++ "\x27"))

/-- `device::format_hex`: hex-renders `uint64_t`, `uint16_t` and
`uint8_t`; everything else falls through to `format_primative`. -/
def format_hex : CppValue → Except CppExc String
  | .VUInt64 n => .ok (hexStr n)
  | .VUInt16 n => .ok (hexStr n)
  | .VUInt8 n => .ok (hexStr n)
  | v => format_primative v

/-- The value of `(int)v << 30` for a promoted `uint16_t`/`uint8_t`
operand `n`: a 32-bit two's-complement `int` (shifting into or past the
sign bit is undefined behaviour in C++; the g++/x86-64 target of this
repository wraps modulo 2^32). -/
def int_shift30 (n : Nat) : Int :=
  let r : Nat := n * 2 ^ 30 % 2 ^ 32
  if r < 2 ^ 31 then (r : Int) else (r : Int) - 2 ^ 32

/-- `device::format_hex_base2_shiftup30`: shift the contained value left
by 30 bits and hex-render it.  A `uint64_t` shifts within `uint64_t`
(mod 2^64); a `uint16_t` or `uint8_t` is promoted to `int` first, so the
shifted value is stored in the `boost::any` as a plain `int`.  Any other
type falls through to `format_primative`. -/
def format_hex_base2_shiftup30 : CppValue → Except CppExc String
  | .VUInt64 n => format_hex (.VUInt64 ((n <<< 30) % 2 ^ 64))
  | .VUInt16 n => format_hex (.VInt (int_shift30 n))
  | .VUInt8 n => format_hex (.VInt (int_shift30 n))
  | v => format_primative v

/-- A kernel-held xclbin metadata section buffer (`debug_ip_layout`,
`ip_layout`, `connectivity` or `mem_topology`): the header's `m_count`
field and the raw bytes of the buffer in memory (`mem i` is the byte `i`
bytes past the section pointer). -/
structure SectBuf where
  m_count : Nat
  mem : Nat → Nat

/-- Modelled from the spec: the driver's `sizeof_sect` macro (defined in
the xocl driver's common header, not in this excerpt) computes a section
buffer's total size from the header's `m_count` field — the offset of the
trailing data array plus `m_count` elements of the array's element size —
and yields 0 for a NULL section pointer.  `hdr_off` and `elem_size` are
the C struct-layout constants `offsetof(<layout>, <data>)` and
`sizeof(<data>[0])` of the section type at hand. -/
def sizeof_sect (hdr_off elem_size : Nat) : Option SectBuf → Nat
  | none => 0
  | some s => hdr_off + s.m_count * elem_size

/-- The bytes of an optional section buffer (never read when the buffer is
NULL, since its size is then 0). -/
def sect_mem : Option SectBuf → (Nat → Nat)
  | none => fun _ => 0
  | some s => s.mem

/-- The kernel device state the binary sysfs reads consult:
`xdev->debug_layout`, `xdev->layout`, `xdev->connectivity`,
`xdev->topology` (each possibly NULL). -/
structure xocl_dev where
  debug_layout : Option SectBuf
  layout : Option SectBuf
  connectivity : Option SectBuf
  topology : Option SectBuf

/-- The shared body of the four binary sysfs read handlers: given the
section's total `size` and its bytes, a read at byte `offset` with
requested length `count` returns 0 and copies nothing when
`offset >= size`; otherwise `u32 nread` is assigned `count` if
`count < size - offset` and `size - offset` otherwise (each truncated to
32 bits by the `u32` assignment), `nread` bytes starting at byte `offset`
are copied to the caller, and `nread` is returned.  The result is the pair
(returned byte count, bytes copied into the caller's buffer). -/
def bin_sect_read (size : Nat) (mem : Nat → Nat) (offset count : Nat) :
    Nat × List Nat :=
  if offset ≥ size then (0, [])
  else
    let nread := if count < size - offset then count % 2 ^ 32 else (size - offset) % 2 ^ 32
    (nread, readBytes mem offset nread)

/-- `read_debug_ip_layout`: binary read of `xdev->debug_layout`, sized by
`sizeof_sect(xdev->debug_layout, m_debug_ip_data)`. -/
def read_debug_ip_layout (hdr_off elem_size : Nat) (xdev : xocl_dev)
    (offset count : Nat) : Nat × List Nat :=
  bin_sect_read (sizeof_sect hdr_off elem_size xdev.debug_layout)
    (sect_mem xdev.debug_layout) offset count

/-- `read_ip_layout`: binary read of `xdev->layout`, sized by
`sizeof_sect(xdev->layout, m_ip_data)`. -/
def read_ip_layout (hdr_off elem_size : Nat) (xdev : xocl_dev)
    (offset count : Nat) : Nat × List Nat :=
  bin_sect_read (sizeof_sect hdr_off elem_size xdev.layout)
    (sect_mem xdev.layout) offset count

/-- `read_connectivity`: binary read of `xdev->connectivity`, sized by
`sizeof_sect(xdev->connectivity, m_connection)`. -/
def read_connectivity (hdr_off elem_size : Nat) (xdev : xocl_dev)
    (offset count : Nat) : Nat × List Nat :=
  bin_sect_read (sizeof_sect hdr_off elem_size xdev.connectivity)
    (sect_mem xdev.connectivity) offset count

/-- `read_mem_topology`: binary read of `xdev->topology`, sized by
`sizeof_sect(xdev->topology, m_mem_data)`. -/
def read_mem_topology (hdr_off elem_size : Nat) (xdev : xocl_dev)
    (offset count : Nat) : Nat × List Nat :=
  bin_sect_read (sizeof_sect hdr_off elem_size xdev.topology)
    (sect_mem xdev.topology) offset count

/-- A textual sysfs `device_attribute`: name, file mode, and whether a
show (read) and a store (write) handler is installed. -/
structure DeviceAttribute where
  name : String
  mode : Nat
  has_show : Bool
  has_store : Bool
deriving DecidableEq, Repr

/-- The kernel's `DEVICE_ATTR_RO(name)`: mode 0444, show handler only. -/
def DEVICE_ATTR_RO (n : String) : DeviceAttribute := ⟨n, 0o444, true, false⟩

/-- The kernel's `DEVICE_ATTR_WO(name)`: mode 0200, store handler only. -/
def DEVICE_ATTR_WO (n : String) : DeviceAttribute := ⟨n, 0o200, false, true⟩

/-- A binary sysfs `bin_attribute`: name, file mode, and whether a read
and a write handler is installed. -/
structure BinAttribute where
  name : String
  mode : Nat
  has_read : Bool
  has_write : Bool
deriving DecidableEq, Repr

/-- `dev_attr_xclbinuuid`. -/
def dev_attr_xclbinuuid : DeviceAttribute := DEVICE_ATTR_RO ("xclbinuuid")

/-- `dev_attr_userbar`. -/
def dev_attr_userbar : DeviceAttribute := DEVICE_ATTR_RO ("userbar")

/-- `dev_attr_user_pf`. -/
def dev_attr_user_pf : DeviceAttribute := DEVICE_ATTR_RO ("user_pf")

/-- `dev_attr_kdsstat`. -/
def dev_attr_kdsstat : DeviceAttribute := DEVICE_ATTR_RO ("kdsstat")

/-- `dev_attr_memstat`. -/
def dev_attr_memstat : DeviceAttribute := DEVICE_ATTR_RO ("memstat")

/-- `dev_attr_memstat_raw`. -/
def dev_attr_memstat_raw : DeviceAttribute := DEVICE_ATTR_RO ("memstat_raw")

/-- `dev_attr_reset`. -/
def dev_attr_reset : DeviceAttribute := DEVICE_ATTR_WO ("reset")

/-- `reset_store`: run `xocl_hot_reset` (its return value is the
parameter `ret`); on success (0) report the whole input `count` as
consumed, otherwise return the error code. -/
def reset_store (ret : Int) (count : Nat) : Int :=
  if ret = 0 then (count : Int) else ret

/-- `debug_ip_layout_attr`: name `debug_ip_layout`, mode 0444, read
handler `read_debug_ip_layout`, write handler NULL. -/
def debug_ip_layout_attr : BinAttribute := ⟨"debug_ip_layout", 0o444, true, false⟩

/-- `ip_layout_attr`: name `ip_layout`, mode 0444, read handler
`read_ip_layout`, write handler NULL. -/
def ip_layout_attr : BinAttribute := ⟨"ip_layout", 0o444, true, false⟩

/-- `connectivity_attr`: name `connectivity`, mode 0444, read handler
`read_connectivity`, write handler NULL. -/
def connectivity_attr : BinAttribute := ⟨"connectivity", 0o444, true, false⟩

/-- `mem_topology_attr`: name `mem_topology`, mode 0444, read handler
`read_mem_topology`, write handler NULL. -/
def mem_topology_attr : BinAttribute := ⟨"mem_topology", 0o444, true, false⟩

/-- The `xocl_attrs` table (NULL terminator dropped). -/
def xocl_attrs : List DeviceAttribute :=
  [dev_attr_xclbinuuid, dev_attr_userbar, dev_attr_kdsstat, dev_attr_memstat,
   dev_attr_memstat_raw, dev_attr_user_pf, dev_attr_reset]

/-- The `xocl_bin_attrs` table (NULL terminator dropped). -/
def xocl_bin_attrs : List BinAttribute :=
  [debug_ip_layout_attr, ip_layout_attr, connectivity_attr, mem_topology_attr]

/-- A sysfs `attribute_group`: the textual and the binary attributes. -/
structure AttributeGroup where
  attrs : List DeviceAttribute
  bin_attrs : List BinAttribute

/-- `xocl_attr_group`. -/
def xocl_attr_group : AttributeGroup := ⟨xocl_attrs, xocl_bin_attrs⟩

/-- `xocl_init_sysfs`: call `sysfs_create_group` on `xocl_attr_group`
(the kernel call is the parameter `create`), log an error via `xocl_err`
exactly when it failed, and return its result unchanged.  The result pair
is (returned code, whether the failure was logged). -/
def xocl_init_sysfs (create : AttributeGroup → Int) : Int × Bool :=
  let ret := create xocl_attr_group
  (ret, decide (ret ≠ 0))

/-! ## Theorems -/

/-- C2: `device::get_axlf_section(section, xclbin_id)` throws
`std::runtime_error("xclbin id mismatch")` if and only if `xclbin_id` is
non-null and differs from the uuid registered by the most recent
`register_axlf`; otherwise the id check raises nothing and the lookup
result is returned.  (The method is `const`: the device state cannot
change, and the model is a pure function of the state.) -/
theorem C2_get_axlf_section_id_mismatch (dev : Device) (top : axlf)
    (sec : SectionKind) (xclbin_id : Nat) :
    (get_axlf_section (register_axlf dev top) sec xclbin_id
        = .error (.runtime_error ("xclbin id mismatch"))
      ↔ xclbin_id ≠ 0 ∧ xclbin_id ≠ top.m_header_uuid)
    ∧ (¬(xclbin_id ≠ 0 ∧ xclbin_id ≠ top.m_header_uuid) →
        get_axlf_section (register_axlf dev top) sec xclbin_id
          = .ok (find_section (register_axlf dev top) sec)) := by
  have huuid : (register_axlf dev top).m_xclbin_uuid = top.m_header_uuid := rfl
  by_cases h : xclbin_id ≠ 0 ∧ xclbin_id ≠ top.m_header_uuid
  · constructor
    · simp [get_axlf_section, huuid, h]
    · intro hc
      exact absurd h hc
  · constructor
    · simp only [get_axlf_section, huuid]
      rw [if_neg h]
      simp [h]
    · intro _
      simp only [get_axlf_section, huuid]
      rw [if_neg h]

/-- C4: with a non-zero xrt.ini slot size `s`,
`device::get_ert_slots(xml_data, xml_size)` throws
`std::runtime_error("invalid slot size ... in xrt.ini")` if and only if
`ERT_CQ_SIZE / s > 128`, and otherwise returns `(ERT_CQ_SIZE / s, s)`
without consulting the xml metadata. -/
theorem C4_ert_ini_slot_size (s num_cus max_cu_size : Nat) (hs : s ≠ 0) :
    ((∃ msg, get_ert_slots_xml s num_cus max_cu_size = .error (.runtime_error msg))
      ↔ ERT_CQ_SIZE / s > 128)
    ∧ (ERT_CQ_SIZE / s ≤ 128 →
        get_ert_slots_xml s num_cus max_cu_size = .ok (ERT_CQ_SIZE / s, s))
    ∧ (∀ num_cus2 max_cu_size2,
        get_ert_slots_xml s num_cus max_cu_size
          = get_ert_slots_xml s num_cus2 max_cu_size2) := by
  refine ⟨?_, ?_, ?_⟩
  · constructor
    · rintro ⟨msg, hmsg⟩
      by_contra hgt
      rw [not_lt] at hgt
      simp [get_ert_slots_xml, hs, not_lt.mpr hgt] at hmsg
    · intro hgt
      exact ⟨"invalid slot size \x27" ++ toString s ++ "\x27 in xrt.ini",
        by simp [get_ert_slots_xml, hs, hgt]⟩
  · intro hle
    simp [get_ert_slots_xml, hs, not_lt.mpr hle]
  · intro c2 m2
    simp [get_ert_slots_xml, hs]

/-- Witness for C4 at slot size 1024 (`ERT_CQ_SIZE / 1024 = 64 ≤ 128`). -/
theorem C4_ert_ini_slot_size_witness :
    (1024 : Nat) ≠ 0 ∧
    (((∃ msg, get_ert_slots_xml 1024 0 0 = .error (.runtime_error msg))
        ↔ ERT_CQ_SIZE / 1024 > 128)
      ∧ (ERT_CQ_SIZE / 1024 ≤ 128 →
          get_ert_slots_xml 1024 0 0 = .ok (ERT_CQ_SIZE / 1024, 1024))
      ∧ (∀ num_cus2 max_cu_size2,
          get_ert_slots_xml 1024 0 0 = get_ert_slots_xml 1024 num_cus2 max_cu_size2)) :=
  ⟨by decide, C4_ert_ini_slot_size 1024 0 0 (by decide)⟩

/-- C7: `xocl_init_sysfs` returns 0 exactly when `sysfs_create_group`
on `xocl_attr_group` succeeds, returns the same non-zero code on failure,
and logs the error exactly in that case. -/
theorem C7_init_sysfs_propagates (create : AttributeGroup → Int) :
    (xocl_init_sysfs create).1 = create xocl_attr_group
    ∧ ((xocl_init_sysfs create).1 = 0 ↔ create xocl_attr_group = 0)
    ∧ ((xocl_init_sysfs create).2 = true ↔ create xocl_attr_group ≠ 0) := by
  refine ⟨rfl, Iff.rfl, ?_⟩
  simp [xocl_init_sysfs]

/-- C9: `device::format_hex_base2_shiftup30` hex-renders a `uint64_t`
shifted left by 30 (modulo 2^64), but always throws `xrt_core::error` on
a `uint16_t` or a `uint8_t`, whose shifted value is stored as a plain
`int` that neither `format_hex` nor `format_primative` accepts. -/
theorem C9_shiftup30 :
    (∀ n : Nat, format_hex_base2_shiftup30 (.VUInt64 n)
        = .ok (hexStr (n * 2 ^ 30 % 2 ^ 64)))
    ∧ (∀ n : Nat, ∃ msg, format_hex_base2_shiftup30 (.VUInt16 n)
        = .error (.xrt_error msg))
    ∧ (∀ n : Nat, ∃ msg, format_hex_base2_shiftup30 (.VUInt8 n)
        = .error (.xrt_error msg)) := by
  refine ⟨fun n => ?_, fun n => ⟨_, rfl⟩, fun n => ⟨_, rfl⟩⟩
  simp [format_hex_base2_shiftup30, format_hex, Nat.shiftLeft_eq]

/-- C10: `device::get_xclbin_uuid` never propagates `query::no_such_key`:
with no `xclbin_uuid` key it returns the default nil uuid, and on a
successful query it returns the uuid built from the queried string. -/
theorem C10_xclbin_uuid_no_such_key (mk : String → Nat) (q : Except CppExc String) :
    get_xclbin_uuid mk q ≠ .error .no_such_key
    ∧ (q = .error .no_such_key → get_xclbin_uuid mk q = .ok 0)
    ∧ (∀ s, q = .ok s → get_xclbin_uuid mk q = .ok (mk s)) := by
  refine ⟨?_, ?_, ?_⟩
  · cases q with
    | ok s => simp [get_xclbin_uuid]
    | error e => cases e <;> simp [get_xclbin_uuid]
  · intro h
    subst h
    rfl
  · intro s h
    subst h
    rfl

/-- C6: the registered attribute group exposes exactly the six textual
read-only attributes, exactly one write-only `reset` attribute whose
store handler returns the full input count on success and the reset
operation's error code on failure, and exactly the four binary attributes
with read-only mode 0444 and no write handler. -/
theorem C6_attr_group :
    xocl_attr_group.attrs.map (fun a => (a.name, a.mode, a.has_show, a.has_store))
      = [("xclbinuuid", 0o444, true, false), ("userbar", 0o444, true, false),
         ("kdsstat", 0o444, true, false), ("memstat", 0o444, true, false),
         ("memstat_raw", 0o444, true, false), ("user_pf", 0o444, true, false),
         ("reset", 0o200, false, true)]
    ∧ xocl_attr_group.bin_attrs.map (fun a => (a.name, a.mode, a.has_read, a.has_write))
      = [("debug_ip_layout", 0o444, true, false), ("ip_layout", 0o444, true, false),
         ("connectivity", 0o444, true, false), ("mem_topology", 0o444, true, false)]
    ∧ (∀ (ret : Int) (count : Nat),
        (ret = 0 → reset_store ret count = (count : Int))
        ∧ (ret ≠ 0 → reset_store ret count = ret)) := by
  refine ⟨rfl, rfl, fun ret count => ⟨fun h => ?_, fun h => ?_⟩⟩
  · simp [reset_store, h]
  · simp [reset_store, h]

/-- The behaviour shared by the four binary read handlers: a read past the
end returns 0 and copies nothing; otherwise the returned count is
`min(count, size - offset)` truncated to 32 bits by the `u32 nread`
variable, and exactly the bytes `[offset, offset + nread)` of the section
buffer are copied out. -/
theorem bin_sect_read_spec (size : Nat) (mem : Nat → Nat) (offset count : Nat) :
    (offset ≥ size → bin_sect_read size mem offset count = (0, []))
    ∧ (offset < size →
        (bin_sect_read size mem offset count).1 = min count (size - offset) % 2 ^ 32
        ∧ (bin_sect_read size mem offset count).2
            = readBytes mem offset (min count (size - offset) % 2 ^ 32)) := by
  constructor
  · intro h
    simp [bin_sect_read, h]
  · intro h
    have hns : ¬offset ≥ size := not_le.mpr h
    by_cases hc : count < size - offset
    · have hmin : min count (size - offset) = count := min_eq_left (Nat.le_of_lt hc)
      simp [bin_sect_read, hns, hc, hmin]
    · have hmin : min count (size - offset) = size - offset :=
        min_eq_right (Nat.le_of_not_lt hc)
      simp [bin_sect_read, hns, hc, hmin]

/-- C1 (amended): each of the four binary sysfs reads, against a section
buffer sized from the header's `m_count` via `sizeof_sect`, returns 0 when
`offset >= size`, and otherwise copies and returns
`min(count, size - offset) mod 2^32` bytes starting at byte `offset`
(the count passes through the 32-bit `u32 nread`). -/
theorem C1_bin_reads (hdr_off elem_size : Nat) (xdev : xocl_dev)
    (offset count : Nat) :
    ((offset ≥ sizeof_sect hdr_off elem_size xdev.debug_layout →
        read_debug_ip_layout hdr_off elem_size xdev offset count = (0, []))
      ∧ (offset < sizeof_sect hdr_off elem_size xdev.debug_layout →
          (read_debug_ip_layout hdr_off elem_size xdev offset count).1
            = min count (sizeof_sect hdr_off elem_size xdev.debug_layout - offset) % 2 ^ 32
          ∧ (read_debug_ip_layout hdr_off elem_size xdev offset count).2
            = readBytes (sect_mem xdev.debug_layout) offset
                (min count (sizeof_sect hdr_off elem_size xdev.debug_layout - offset) % 2 ^ 32)))
    ∧ ((offset ≥ sizeof_sect hdr_off elem_size xdev.layout →
        read_ip_layout hdr_off elem_size xdev offset count = (0, []))
      ∧ (offset < sizeof_sect hdr_off elem_size xdev.layout →
          (read_ip_layout hdr_off elem_size xdev offset count).1
            = min count (sizeof_sect hdr_off elem_size xdev.layout - offset) % 2 ^ 32
          ∧ (read_ip_layout hdr_off elem_size xdev offset count).2
            = readBytes (sect_mem xdev.layout) offset
                (min count (sizeof_sect hdr_off elem_size xdev.layout - offset) % 2 ^ 32)))
    ∧ ((offset ≥ sizeof_sect hdr_off elem_size xdev.connectivity →
        read_connectivity hdr_off elem_size xdev offset count = (0, []))
      ∧ (offset < sizeof_sect hdr_off elem_size xdev.connectivity →
          (read_connectivity hdr_off elem_size xdev offset count).1
            = min count (sizeof_sect hdr_off elem_size xdev.connectivity - offset) % 2 ^ 32
          ∧ (read_connectivity hdr_off elem_size xdev offset count).2
            = readBytes (sect_mem xdev.connectivity) offset
                (min count (sizeof_sect hdr_off elem_size xdev.connectivity - offset) % 2 ^ 32)))
    ∧ ((offset ≥ sizeof_sect hdr_off elem_size xdev.topology →
        read_mem_topology hdr_off elem_size xdev offset count = (0, []))
      ∧ (offset < sizeof_sect hdr_off elem_size xdev.topology →
          (read_mem_topology hdr_off elem_size xdev offset count).1
            = min count (sizeof_sect hdr_off elem_size xdev.topology - offset) % 2 ^ 32
          ∧ (read_mem_topology hdr_off elem_size xdev offset count).2
            = readBytes (sect_mem xdev.topology) offset
                (min count (sizeof_sect hdr_off elem_size xdev.topology - offset) % 2 ^ 32))) :=
  ⟨bin_sect_read_spec _ _ _ _, bin_sect_read_spec _ _ _ _,
   bin_sect_read_spec _ _ _ _, bin_sect_read_spec _ _ _ _⟩

/-- A device holding an `ip_layout` section of 60000000 entries of 80
bytes: its `sizeof_sect` size exceeds 2^32. -/
def C1_big_dev : xocl_dev := ⟨none, some ⟨60000000, fun _ => 0⟩, none, none⟩

/-- C1 counterexample: at `offset = 0`, `count = 2^32` against a section
of size `8 + 60000000 * 80 > 2^32`, the read is in range yet returns 0
bytes (the `u32 nread` assignment truncates `count`), while the claim
says it returns `min(count, size - offset) = 2^32`. -/
theorem C1_bin_reads_counterexample :
    (read_ip_layout 8 80 C1_big_dev 0 (2 ^ 32)).1 = 0
    ∧ 0 < sizeof_sect 8 80 C1_big_dev.layout
    ∧ min (2 ^ 32) (sizeof_sect 8 80 C1_big_dev.layout - 0) = 2 ^ 32
    ∧ (0 : Nat) ≠ 2 ^ 32 := by
  refine ⟨?_, by decide, by decide, by decide⟩
  decide

/-- C3 (amended): `get_axlf_section_or_error` returns the stored pair
exactly when the section is registered with nonempty data and the id
matches or is null (a zero-size stored section has a null `data()`
pointer and is reported as missing); and the no-argument
`get_ert_slots()` throws when the `EMBEDDED_METADATA` section is
absent. -/
theorem C3_missing_section_errors :
    (∀ (dev : Device) (sec : SectionKind) (xclbin_id : Nat) (v : List Nat),
      get_axlf_section_or_error dev sec xclbin_id = .ok v ↔
        (find_section dev sec = some v ∧ v ≠ []
          ∧ (xclbin_id = 0 ∨ xclbin_id = dev.m_xclbin_uuid)))
    ∧ (∀ (dev : Device) (ini num_cus max_cu_size : Nat),
        find_section dev .EMBEDDED_METADATA = none →
          get_ert_slots_noarg dev ini num_cus max_cu_size
            = .error (.runtime_error ("No xml metadata in xclbin"))) := by
  constructor
  · intro dev sec id v
    by_cases h : id ≠ 0 ∧ id ≠ dev.m_xclbin_uuid
    · have h3 : ¬(id = 0 ∨ id = dev.m_xclbin_uuid) := by tauto
      simp only [get_axlf_section_or_error, get_axlf_section, if_pos h]
      constructor
      · intro hbad
        exact absurd hbad (by simp)
      · intro hr
        exact absurd hr.2.2 h3
    · have h3 : id = 0 ∨ id = dev.m_xclbin_uuid := by tauto
      simp only [get_axlf_section_or_error, get_axlf_section, if_neg h]
      cases hf : find_section dev sec with
      | none =>
        simp [hf]
      | some w =>
        cases w with
        | nil =>
          simp only [hf]
          constructor
          · intro hbad
            exact absurd hbad (by simp)
          · rintro ⟨hv, hne, h4⟩
            exact absurd (Option.some_injective _ hv).symm hne
        | cons b bs =>
          simp [hf, h3]
          rintro rfl
          simp
  · intro dev i c m h
    simp [get_ert_slots_noarg, get_axlf_section, h, first_is_null]

/-- An xclbin container holding a zero-size `IP_LAYOUT` section. -/
def C3_empty_top : axlf := ⟨77, [⟨.IP_LAYOUT, 0, 0⟩], fun _ => 0⟩

/-- C3 counterexample: after registering a container with a zero-size
`IP_LAYOUT` section, the section is registered (the map holds an empty
vector for it) and the id is null, yet `get_axlf_section_or_error`
throws, contradicting "returns the stored pair exactly when the section
is registered". -/
theorem C3_missing_section_errors_counterexample :
    find_section (register_axlf Device.init C3_empty_top) .IP_LAYOUT = some []
    ∧ get_axlf_section_or_error (register_axlf Device.init C3_empty_top) .IP_LAYOUT 0
        = .error (.runtime_error ("no such xclbin section")) :=
  ⟨rfl, rfl⟩

/-- What `register_axlf`'s loop stores: iterating kinds `ks` (pairwise
distinct), the resulting map holds, for exactly the kinds in `ks` whose
section is present in the container, the bytes at that section's offset
and size. -/
theorem buildSections_find (top : axlf) :
    ∀ (ks : List SectionKind), ks.Nodup → ∀ k : SectionKind,
      ((buildSections top ks).find? (fun p => decide (p.1 = k))).map (fun p => p.2)
        = if k ∈ ks then
            (xclbin_get_axlf_section top k).map
              (fun hdr => readBytes top.mem hdr.m_sectionOffset hdr.m_sectionSize)
          else none := by
  intro ks
  induction ks with
  | nil =>
    intro _ k
    simp [buildSections]
  | cons a as ih =>
    intro hnd k
    obtain ⟨hna, hnd2⟩ := List.nodup_cons.mp hnd
    by_cases hk : k = a
    · subst hk
      cases hget : xclbin_get_axlf_section top k with
      | none =>
        have hkas : k ∉ as := hna
        simp [buildSections, hget, ih hnd2 k, hkas]
      | some hdr =>
        simp [buildSections, hget]
    · cases hget : xclbin_get_axlf_section top a with
      | none =>
        simp [buildSections, hget, ih hnd2 k, hk]
      | some hdr =>
        simp [buildSections, hget, ih hnd2 k, hk, Ne.symm hk]

/-- C5: `register_axlf(top)` replaces all stored sections: afterwards the
device's uuid is the container header's uuid; each of the five listed
kinds is retrievable as the byte-for-byte copy taken at its header's
`m_sectionOffset` with length `m_sectionSize` exactly when present in
`top`; and every other kind (in particular anything registered before
the call but absent from `top`) yields nothing. -/
theorem C5_register_axlf (dev : Device) (top : axlf) :
    (register_axlf dev top).m_xclbin_uuid = top.m_header_uuid
    ∧ (∀ k, k ∈ registeredKinds →
        find_section (register_axlf dev top) k
          = (xclbin_get_axlf_section top k).map
              (fun hdr => readBytes top.mem hdr.m_sectionOffset hdr.m_sectionSize))
    ∧ (∀ k, k ∉ registeredKinds → find_section (register_axlf dev top) k = none) := by
  have hnd : registeredKinds.Nodup := by decide
  refine ⟨rfl, ?_, ?_⟩
  · intro k hk
    have hb := buildSections_find top registeredKinds hnd k
    rw [if_pos hk] at hb
    exact hb
  · intro k hk
    have hb := buildSections_find top registeredKinds hnd k
    rw [if_neg hk] at hb
    exact hb

/-- Rounding a slot count in `[1, 128]` to the next 32-slot status
register boundary when it exceeds 16 keeps it in `[1, 128]` and makes it
a multiple of 32. -/
theorem ert_round_spec (s2 : Nat) (h1 : 1 ≤ s2) (h2 : s2 ≤ 128) :
    1 ≤ (if s2 > 16 then ((s2 - 1) / 32 + 1) * 32 else s2)
    ∧ (if s2 > 16 then ((s2 - 1) / 32 + 1) * 32 else s2) ≤ 128
    ∧ (16 < (if s2 > 16 then ((s2 - 1) / 32 + 1) * 32 else s2) →
        32 ∣ (if s2 > 16 then ((s2 - 1) / 32 + 1) * 32 else s2)) := by
  by_cases h : s2 > 16
  · simp only [if_pos h]
    exact ⟨by omega, by omega, fun _ => ⟨(s2 - 1) / 32 + 1, by ring⟩⟩
  · simp only [if_neg h]
    exact ⟨h1, h2, fun hh => absurd hh h⟩

/-- C8: with no xrt.ini slot size and the xclbin's maximum CU size at
most `ERT_CQ_SIZE`, `get_ert_slots` returns `(slots, ERT_CQ_SIZE/slots)`
with `1 ≤ slots ≤ 128` and `slots` a multiple of 32 whenever
`slots > 16`; the internal slot-size divisor is non-zero, so no division
by zero occurs. -/
theorem C8_ert_slots_default (num_cus max_cu_size : Nat)
    (hm : max_cu_size ≤ ERT_CQ_SIZE) :
    ∃ slots sz,
      get_ert_slots_xml 0 num_cus max_cu_size = .ok (slots, sz)
      ∧ 1 ≤ slots ∧ slots ≤ 128
      ∧ sz = ERT_CQ_SIZE / slots
      ∧ (16 < slots → 32 ∣ slots)
      ∧ 0 < max (ERT_CQ_SIZE / min 128 (max 16 (num_cus * 2 + 1))) max_cu_size := by
  have hs0u : min 128 (max 16 (num_cus * 2 + 1)) ≤ 128 := min_le_left _ _
  have hs0l : 16 ≤ min 128 (max 16 (num_cus * 2 + 1)) :=
    le_min (by norm_num) (le_max_left _ _)
  have hs0pos : 0 < min 128 (max 16 (num_cus * 2 + 1)) := by omega
  have hq1 : 512 ≤ ERT_CQ_SIZE / min 128 (max 16 (num_cus * 2 + 1)) := by
    have h1 : ERT_CQ_SIZE / 128 ≤ ERT_CQ_SIZE / min 128 (max 16 (num_cus * 2 + 1)) :=
      Nat.div_le_div_left hs0u hs0pos
    have h2 : ERT_CQ_SIZE / 128 = 512 := by norm_num [ERT_CQ_SIZE]
    omega
  have hqle : ERT_CQ_SIZE / min 128 (max 16 (num_cus * 2 + 1)) ≤ ERT_CQ_SIZE :=
    Nat.div_le_self _ _
  have hsged : 512 ≤ max (ERT_CQ_SIZE / min 128 (max 16 (num_cus * 2 + 1))) max_cu_size :=
    le_trans hq1 (le_max_left _ _)
  have hsize_pos : 0 < max (ERT_CQ_SIZE / min 128 (max 16 (num_cus * 2 + 1))) max_cu_size := by
    omega
  have hsize_le : max (ERT_CQ_SIZE / min 128 (max 16 (num_cus * 2 + 1))) max_cu_size
      ≤ ERT_CQ_SIZE := max_le hqle hm
  have hs2ge : 1 ≤ ERT_CQ_SIZE /
      max (ERT_CQ_SIZE / min 128 (max 16 (num_cus * 2 + 1))) max_cu_size :=
    (Nat.one_le_div_iff hsize_pos).mpr hsize_le
  have hs2le : ERT_CQ_SIZE /
      max (ERT_CQ_SIZE / min 128 (max 16 (num_cus * 2 + 1))) max_cu_size ≤ 128 := by
    have h1 : ERT_CQ_SIZE /
        max (ERT_CQ_SIZE / min 128 (max 16 (num_cus * 2 + 1))) max_cu_size
        ≤ ERT_CQ_SIZE / 512 := Nat.div_le_div_left hsged (by norm_num)
    have h2 : ERT_CQ_SIZE / 512 = 128 := by norm_num [ERT_CQ_SIZE]
    omega
  have hround := ert_round_spec _ hs2ge hs2le
  exact ⟨_, _, rfl, hround.1, hround.2.1, rfl, hround.2.2, hsize_pos⟩

/-- Witness for C8 at 3 CUs and a maximum CU size of 4096 bytes. -/
theorem C8_ert_slots_default_witness :
    (4096 : Nat) ≤ ERT_CQ_SIZE ∧
    (∃ slots sz,
      get_ert_slots_xml 0 3 4096 = .ok (slots, sz)
      ∧ 1 ≤ slots ∧ slots ≤ 128
      ∧ sz = ERT_CQ_SIZE / slots
      ∧ (16 < slots → 32 ∣ slots)
      ∧ 0 < max (ERT_CQ_SIZE / min 128 (max 16 (3 * 2 + 1))) 4096) :=
  ⟨by decide, C8_ert_slots_default 3 4096 (by decide)⟩
